import Mathlib

/-!
Verification of the two-node door-lock system (Control ECU in
src/Control/main.c, HMI ECU in src/main.c) against its specification.

Bytes on the serial channel are modelled as natural numbers; every receive
applies `% 256` (the UART delivers `uint8_t`). An input stream is the finite
list of bytes that ever arrive, in order; a receive on an exhausted stream
models the per-byte timeout of the source and yields the source's default
fill value. C strings (5-character password buffers with a terminating NUL)
are modelled by their character list truncated at the first zero byte,
which is exactly what `strcmp`/`strcpy` observe.
-/

namespace DoorLock

/-- UART command opcodes, src/Control/main.c lines 28-35. -/
def CMD_SETUP_PASSWORD : Nat := 0x01

def CMD_VERIFY_PASSWORD : Nat := 0x02

def CMD_CHANGE_PASSWORD : Nat := 0x03

def CMD_SET_TIMEOUT : Nat := 0x04

def CMD_OPEN_DOOR : Nat := 0x05

def CMD_ERASE_EEPROM : Nat := 0x06

def CMD_CHECK_PASSWORD : Nat := 0x07

def CMD_TRIGGER_LOCKOUT : Nat := 0x08

/-- UART response codes, src/Control/main.c lines 38-48. -/
def RESP_PASSWORD_MATCH : Nat := 0x10

def RESP_PASSWORD_MISMATCH : Nat := 0x11

def RESP_TIMEOUT_SAVED : Nat := 0x12

def RESP_DOOR_UNLOCKING : Nat := 0x13

def RESP_DOOR_LOCKING : Nat := 0x14

def RESP_DOOR_LOCKED : Nat := 0x15

def RESP_SYSTEM_LOCKED : Nat := 0x16

def RESP_EEPROM_ERASED : Nat := 0x17

def RESP_PASSWORD_EXISTS : Nat := 0x18

def RESP_NO_PASSWORD : Nat := 0x19

def RESP_COUNTDOWN_START : Nat := 0x1A

/-- Password length, src/Control/main.c line 51. -/
def PASSWORD_LENGTH : Nat := 5

/-- Maximum password attempts per HMI dialog, src/main.c line 52. -/
def MAX_ATTEMPTS : Nat := 3

/-- EEPROM validity sentinel, src/Control/main.c line 61. -/
def PASSWORD_VALID_MARKER : Nat := 0xAA55AA55

/-- Default auto-lock timeout in seconds, src/Control/main.c line 64. -/
def DEFAULT_TIMEOUT : Nat := 5

/-- Local sentinel returned by the HMI response wait, src/main.c line 65. -/
def RESP_TIMEOUT_SENTINEL : Nat := 0xFF

/-- The C-string value of a character buffer: the bytes before the first
NUL, which is all that `strcmp` and `strcpy` observe. -/
def cstr (l : List Nat) : List Nat := l.takeWhile (fun c => c != 0)

namespace Control

/-- The four EEPROM words the Control application uses: block 0 offsets
0 and 1 (password), 2 (timeout), 3 (validity flag); src/Control/main.c
lines 54-61. -/
structure EEPROMState where
  passwordWord0 : Nat
  passwordWord1 : Nat
  timeoutWord : Nat
  validFlagWord : Nat
deriving DecidableEq

/-- The Control ECU's mutable state: `g_storedPassword` (as its C-string
value), `g_autoLockTimeout`, and the EEPROM contents;
src/Control/main.c lines 71-72. -/
structure ControlState where
  storedPassword : List Nat
  autoLockTimeout : Nat
  eeprom : EEPROMState
deriving DecidableEq

/-- One UART byte receive with per-byte timeout: the next stream byte if
one ever arrives, else the caller's default fill value. -/
def ReceiveByte (input : List Nat) (dflt : Nat) : Nat × List Nat :=
  match input with
  | [] => (dflt, [])
  | b :: rest => (b % 256, rest)

/-- Receive `n` characters, each defaulting to the character zero (48) on
timeout; the per-character loop of `ReceivePassword`,
src/Control/main.c lines 175-189. -/
def ReceiveChars : Nat → List Nat → List Nat × List Nat
  | 0, input => ([], input)
  | n + 1, input =>
    let r := ReceiveByte input 48
    let r2 := ReceiveChars n r.2
    (r.1 :: r2.1, r2.2)

/-- `ReceivePassword`, src/Control/main.c lines 170-192: five characters,
each with its own bounded wait. -/
def ReceivePassword (input : List Nat) : List Nat × List Nat :=
  ReceiveChars PASSWORD_LENGTH input

/-- `VerifyPassword`, src/Control/main.c lines 199-202:
`strcmp(password, g_storedPassword) == 0`. -/
def VerifyPassword (s : ControlState) (password : List Nat) : Bool :=
  cstr password == cstr s.storedPassword

/-- The packing step of `SavePassword`, src/Control/main.c lines 213-218:
five characters packed most-significant-first into two 32-bit words. -/
def SavePasswordWords (password : List Nat) : Nat × Nat :=
  ((password.getD 0 0 <<< 24 ||| password.getD 1 0 <<< 16 |||
    password.getD 2 0 <<< 8 ||| password.getD 3 0) % 2 ^ 32,
   (password.getD 4 0 <<< 24) % 2 ^ 32)

/-- `SavePassword`, src/Control/main.c lines 208-232: writes the two packed
words, writes the validity marker (`MarkPasswordAsValid`, lines 508-511),
and copies the password into `g_storedPassword`. -/
def SavePassword (s : ControlState) (password : List Nat) : ControlState :=
  { s with
    eeprom := { s.eeprom with
      passwordWord0 := (SavePasswordWords password).1
      passwordWord1 := (SavePasswordWords password).2
      validFlagWord := PASSWORD_VALID_MARKER }
    storedPassword := cstr password }

/-- The unpacking step of `LoadPassword`, src/Control/main.c lines 247-251:
five characters extracted from the two stored words. -/
def LoadPasswordChars (w0 w1 : Nat) : List Nat :=
  [w0 >>> 24 &&& 0xFF, w0 >>> 16 &&& 0xFF, w0 >>> 8 &&& 0xFF,
   w0 &&& 0xFF, w1 >>> 24 &&& 0xFF]

/-- `LoadTimeout`, src/Control/main.c lines 259-272: the stored word's low
byte, replaced by the default when outside [5,30]. -/
def LoadTimeout (w : Nat) : Nat :=
  if w &&& 0xFF < 5 || 30 < w &&& 0xFF then DEFAULT_TIMEOUT else w &&& 0xFF

/-- `SaveTimeout`, src/Control/main.c lines 278-288: stores the byte as a
word and updates the in-memory timeout, with no range check. -/
def SaveTimeout (s : ControlState) (timeout : Nat) : ControlState :=
  { s with
    eeprom := { s.eeprom with timeoutWord := timeout }
    autoLockTimeout := timeout }

/-- `IsPasswordValid`, src/Control/main.c lines 495-502: exact sentinel
comparison. -/
def IsPasswordValid (s : ControlState) : Bool :=
  s.eeprom.validFlagWord == PASSWORD_VALID_MARKER

/-- The Control state right after boot: `LoadPassword(); LoadTimeout();`,
src/Control/main.c lines 113-114. -/
def BootState (ee : EEPROMState) : ControlState :=
  { storedPassword := cstr (LoadPasswordChars ee.passwordWord0 ee.passwordWord1)
    autoLockTimeout := LoadTimeout ee.timeoutWord
    eeprom := ee }

/-- The countdown bytes sent by the loop `for (i = timeout; i > 0; i--)
SendCountdown(i);`, src/Control/main.c lines 425-428. -/
def CountdownBytes : Nat → List Nat
  | 0 => []
  | n + 1 => (n + 1) :: CountdownBytes n

/-- The bytes emitted by `PerformDoorOperation`, src/Control/main.c lines
411-440: unlocking, countdown start, the countdown stream, locking,
locked. -/
def PerformDoorOperation (s : ControlState) : List Nat :=
  RESP_DOOR_UNLOCKING :: RESP_COUNTDOWN_START ::
    (CountdownBytes s.autoLockTimeout ++ [RESP_DOOR_LOCKING, RESP_DOOR_LOCKED])

/-- Result of one opcode handler: the new state, the unconsumed input
stream, and the bytes sent back to the HMI. -/
structure StepResult where
  state : ControlState
  rest : List Nat
  out : List Nat
deriving DecidableEq

/-- `HandleCheckPassword`, src/Control/main.c lines 527-534. -/
def HandleCheckPassword (s : ControlState) (input : List Nat) : StepResult :=
  ⟨s, input, [if IsPasswordValid s then RESP_PASSWORD_EXISTS else RESP_NO_PASSWORD]⟩

/-- `HandleSetupPassword`, src/Control/main.c lines 295-315: two payloads,
saved only when their C-string values agree. -/
def HandleSetupPassword (s : ControlState) (input : List Nat) : StepResult :=
  let r1 := ReceivePassword input
  let r2 := ReceivePassword r1.2
  if cstr r1.1 == cstr r2.1 then
    ⟨SavePassword s r1.1, r2.2, [RESP_PASSWORD_MATCH]⟩
  else
    ⟨s, r2.2, [RESP_PASSWORD_MISMATCH]⟩

/-- `HandleChangePassword`, src/Control/main.c lines 322-337: verification
only; the new credential travels in a later Setup-password exchange. -/
def HandleChangePassword (s : ControlState) (input : List Nat) : StepResult :=
  let r := ReceivePassword input
  ⟨s, r.2,
    [if VerifyPassword s r.1 then RESP_PASSWORD_MATCH else RESP_PASSWORD_MISMATCH]⟩

/-- `HandleSetTimeout`, src/Control/main.c lines 344-376: the timeout byte
is received before the password is checked, so it is consumed even on
mismatch. -/
def HandleSetTimeout (s : ControlState) (input : List Nat) : StepResult :=
  let r := ReceivePassword input
  let rt := ReceiveByte r.2 DEFAULT_TIMEOUT
  if VerifyPassword s r.1 then
    ⟨SaveTimeout s rt.1, rt.2, [RESP_TIMEOUT_SAVED]⟩
  else
    ⟨s, rt.2, [RESP_PASSWORD_MISMATCH]⟩

/-- `HandleOpenDoor`, src/Control/main.c lines 383-402. -/
def HandleOpenDoor (s : ControlState) (input : List Nat) : StepResult :=
  let r := ReceivePassword input
  if VerifyPassword s r.1 then
    ⟨s, r.2, RESP_PASSWORD_MATCH :: PerformDoorOperation s⟩
  else
    ⟨s, r.2, [RESP_PASSWORD_MISMATCH]⟩

/-- Modelled from the spec: the storage collaborator's mass-erase primitive
(`EEPROM_MassErase`, src/Control/eeprom.c lines 193-206, delegating to the
external TivaWare `EEPROMMassErase`). The spec treats storage as an
external collaborator (section 6) whose erased words do not equal the
validity sentinel (section 3: absence/mismatch means no trusted
credential); the erased read value is the hardware's 0xFFFFFFFF. -/
def EEPROM_ERASED_WORD : Nat := 0xFFFFFFFF

/-- EEPROM contents after a mass erase: every word reads as the erased
value. -/
def ErasedEEPROM : EEPROMState :=
  ⟨EEPROM_ERASED_WORD, EEPROM_ERASED_WORD, EEPROM_ERASED_WORD, EEPROM_ERASED_WORD⟩

/-- `HandleEraseEEPROM`, src/Control/main.c lines 466-489: on match, mass
erase, reset the in-memory credential to the five characters 48 (the
string of five zero digits) and the timeout to the default. -/
def HandleEraseEEPROM (s : ControlState) (input : List Nat) : StepResult :=
  let r := ReceivePassword input
  if VerifyPassword s r.1 then
    ⟨⟨[48, 48, 48, 48, 48], DEFAULT_TIMEOUT, ErasedEEPROM⟩, r.2, [RESP_EEPROM_ERASED]⟩
  else
    ⟨s, r.2, [RESP_PASSWORD_MISMATCH]⟩

/-- `HandleTriggerLockout` / `TriggerLockout`, src/Control/main.c lines
447-459 and 518-521: sends the lockout notification and runs the buzzer. -/
def HandleTriggerLockout (s : ControlState) (input : List Nat) : StepResult :=
  ⟨s, input, [RESP_SYSTEM_LOCKED]⟩

/-- The opcode dispatch of the Control main loop, src/Control/main.c lines
123-155; unknown opcodes are ignored. -/
def ControlStep (s : ControlState) (command : Nat) (input : List Nat) : StepResult :=
  if command = CMD_CHECK_PASSWORD then HandleCheckPassword s input
  else if command = CMD_SETUP_PASSWORD then HandleSetupPassword s input
  else if command = CMD_CHANGE_PASSWORD then HandleChangePassword s input
  else if command = CMD_SET_TIMEOUT then HandleSetTimeout s input
  else if command = CMD_OPEN_DOOR then HandleOpenDoor s input
  else if command = CMD_ERASE_EEPROM then HandleEraseEEPROM s input
  else if command = CMD_TRIGGER_LOCKOUT then HandleTriggerLockout s input
  else ⟨s, input, []⟩

/-- The Control main loop run over a finite input stream, with explicit
fuel; each iteration consumes at least the command byte, so fuel equal to
the stream length always suffices. -/
def ControlRunFuel : Nat → ControlState → List Nat → ControlState × List Nat
  | 0, s, _ => (s, [])
  | _ + 1, s, [] => (s, [])
  | fuel + 1, s, command :: restInput =>
    let r := ControlStep s command restInput
    let r2 := ControlRunFuel fuel r.state r.rest
    (r2.1, r.out ++ r2.2)

/-- The Control main loop, src/Control/main.c lines 117-159, processing a
whole finite input stream. -/
def ControlRun (s : ControlState) (input : List Nat) : ControlState × List Nat :=
  ControlRunFuel input.length s input

/-- The timeout byte a Set-timeout invocation consumes from a given input
stream: the byte after the five password characters, defaulting when the
stream is exhausted (src/Control/main.c lines 354-364). -/
def ReceivedTimeoutByte (input : List Nat) : Nat :=
  (ReceiveByte (ReceivePassword input).2 DEFAULT_TIMEOUT).1

/-- The eleven response opcodes the Control ECU can send,
src/Control/main.c lines 38-48. -/
def RESPONSE_CODES : List Nat :=
  [RESP_PASSWORD_MATCH, RESP_PASSWORD_MISMATCH, RESP_TIMEOUT_SAVED,
   RESP_DOOR_UNLOCKING, RESP_DOOR_LOCKING, RESP_DOOR_LOCKED,
   RESP_SYSTEM_LOCKED, RESP_EEPROM_ERASED, RESP_PASSWORD_EXISTS,
   RESP_NO_PASSWORD, RESP_COUNTDOWN_START]

/-- A concrete EEPROM image: credential 12345 (characters 49..53) packed
into the two password words, timeout word 5, validity marker set. Used as
the boot image of concrete runs. -/
def SampleEEPROM : EEPROMState :=
  ⟨0x31323334, 0x35000000, 5, PASSWORD_VALID_MARKER⟩

end Control

namespace HMI

/-- One framed transmission by the HMI: a command opcode followed by its
payload bytes (a `UART5_SendChar(CMD_...)` followed by the payload sends).
A `TriggerLockout` emission is the frame with command `CMD_TRIGGER_LOCKOUT`. -/
structure Frame where
  cmd : Nat
  payload : List Nat
deriving DecidableEq

/-- `WaitForResponse`, src/main.c lines 542-556: the next response byte if
one ever arrives within the bound, else the local sentinel. -/
def WaitForResponse (responses : List Nat) : Nat × List Nat :=
  match responses with
  | [] => (RESP_TIMEOUT_SENTINEL, [])
  | b :: rest => (b % 256, rest)

/-- The countdown receive loop inside the HMI `HandleOpenDoor`, src/main.c
lines 326-343: consume bytes until the first one equal to
`RESP_DOOR_LOCKING`; return what is left of the stream after it. When the
stream is exhausted without that byte the C loop would spin forever
waiting; the model truncates there, consuming everything. -/
def CountdownReceive : List Nat → List Nat
  | [] => []
  | b :: rest =>
    if b % 256 = RESP_DOOR_LOCKING then rest else CountdownReceive rest

/-- The response consumption of the successful branch of the HMI
`HandleOpenDoor`, src/main.c lines 302-363: unlocking message, countdown
start, the countdown loop (only when countdown start was seen), locked
message. Returns the unconsumed responses. -/
def DoorFlow (responses : List Nat) : List Nat :=
  let r1 := WaitForResponse responses
  let r2 := WaitForResponse r1.2
  let afterCountdown :=
    if r2.1 = RESP_COUNTDOWN_START then CountdownReceive r2.2 else r2.2
  let r4 := WaitForResponse afterCountdown
  r4.2

/-- The retry-until-saved loop `while (!passwordSet) passwordSet =
SetupPassword();` around `SetupPassword`, src/main.c lines 211-258:
iteration `k` sends the setup command with the user's `k`-th pair of
entered passwords and succeeds on a `PasswordMatch` response. When the
response stream is exhausted the C loop would retry forever on sentinel
responses; the model truncates after the send that gets no reply. -/
def SetupPasswordLoop (entries : Nat → List Nat × List Nat) :
    Nat → List Nat → List Frame × List Nat
  | k, [] => ([⟨CMD_SETUP_PASSWORD, (entries k).1 ++ (entries k).2⟩], [])
  | k, b :: rest =>
    let sent : List Frame := [⟨CMD_SETUP_PASSWORD, (entries k).1 ++ (entries k).2⟩]
    if b % 256 = RESP_PASSWORD_MATCH then (sent, rest)
    else
      let r := SetupPasswordLoop entries (k + 1) rest
      (sent ++ r.1, r.2)

/-- The attempt loop of the HMI `HandleOpenDoor`, src/main.c lines 286-392:
up to `MAX_ATTEMPTS` password attempts; a match enters the door flow; after
the last mismatch the lockout trigger is sent. `k` is the index of the
current attempt, the second argument the number of attempts left. -/
def OpenDoorAttemptLoop (pw : Nat → List Nat) :
    Nat → Nat → List Nat → List Frame × List Nat
  | _, 0, responses => ([⟨CMD_TRIGGER_LOCKOUT, []⟩], responses)
  | k, n + 1, responses =>
    let sent : List Frame := [⟨CMD_OPEN_DOOR, pw k⟩]
    let r := WaitForResponse responses
    if r.1 = RESP_PASSWORD_MATCH then (sent, DoorFlow r.2)
    else
      let r2 := OpenDoorAttemptLoop pw (k + 1) n r.2
      (sent ++ r2.1, r2.2)

/-- The HMI `HandleOpenDoor` dialog, src/main.c lines 278-393, as the
frames it sends and the responses it leaves unconsumed; `pw k` is the
password the user types on attempt `k`. -/
def HandleOpenDoor (pw : Nat → List Nat) (responses : List Nat) :
    List Frame × List Nat :=
  OpenDoorAttemptLoop pw 0 MAX_ATTEMPTS responses

/-- The attempt loop of the HMI `HandleChangePassword`, src/main.c lines
408-466: like the open-door loop, but a match runs the setup loop for the
new password. -/
def ChangePasswordAttemptLoop (pw : Nat → List Nat)
    (entries : Nat → List Nat × List Nat) :
    Nat → Nat → List Nat → List Frame × List Nat
  | _, 0, responses => ([⟨CMD_TRIGGER_LOCKOUT, []⟩], responses)
  | k, n + 1, responses =>
    let sent : List Frame := [⟨CMD_CHANGE_PASSWORD, pw k⟩]
    let r := WaitForResponse responses
    if r.1 = RESP_PASSWORD_MATCH then
      let r2 := SetupPasswordLoop entries 0 r.2
      (sent ++ r2.1, r2.2)
    else
      let r2 := ChangePasswordAttemptLoop pw entries (k + 1) n r.2
      (sent ++ r2.1, r2.2)

/-- The HMI `HandleChangePassword` dialog, src/main.c lines 400-467. -/
def HandleChangePassword (pw : Nat → List Nat)
    (entries : Nat → List Nat × List Nat) (responses : List Nat) :
    List Frame × List Nat :=
  ChangePasswordAttemptLoop pw entries 0 MAX_ATTEMPTS responses

/-- The HMI `HandleSetTimeout` dialog, src/main.c lines 474-535: one
command frame carrying the password and the chosen timeout byte, then one
response wait; no retry and no lockout path. -/
def HandleSetTimeout (pw : List Nat) (timeout : Nat) (responses : List Nat) :
    List Frame × List Nat :=
  let r := WaitForResponse responses
  ([⟨CMD_SET_TIMEOUT, pw ++ [timeout]⟩], r.2)

/-- The HMI `HandleEraseEEPROM` dialog, src/main.c lines 563-612: one
command frame with the password, one response wait; on `EepromErased` the
setup loop runs for the replacement password; no retry and no lockout
path. -/
def HandleEraseEEPROM (pw : List Nat) (entries : Nat → List Nat × List Nat)
    (responses : List Nat) : List Frame × List Nat :=
  let sent : List Frame := [⟨CMD_ERASE_EEPROM, pw⟩]
  let r := WaitForResponse responses
  if r.1 = RESP_EEPROM_ERASED then
    let r2 := SetupPasswordLoop entries 0 r.2
    (sent ++ r2.1, r2.2)
  else
    (sent, r.2)

/-- How many `TriggerLockout` frames a dialog emitted. -/
def TriggerLockoutCount (frames : List Frame) : Nat :=
  (frames.filter (fun f => f.cmd == CMD_TRIGGER_LOCKOUT)).length

end HMI

/-! ## Helper lemmas -/

namespace Control

theorem ReceiveChars_append (p rest : List Nat) :
    ReceiveChars p.length (p ++ rest) = (p.map (fun b => b % 256), rest) := by
  induction p with
  | nil => simp [ReceiveChars]
  | cons a p ih => simp [ReceiveChars, ReceiveByte, ih]

theorem ReceiveChars_drop (n : Nat) (input : List Nat) (h : n ≤ input.length) :
    (ReceiveChars n input).2 = input.drop n := by
  induction n generalizing input with
  | zero => simp [ReceiveChars]
  | succ n ih =>
    cases input with
    | nil => simp at h
    | cons b rest =>
      simp only [List.length_cons, Nat.add_le_add_iff_right] at h
      simp [ReceiveChars, ReceiveByte, ih rest h]

theorem LoadTimeout_range (w : Nat) : 5 ≤ LoadTimeout w ∧ LoadTimeout w ≤ 30 := by
  unfold LoadTimeout DEFAULT_TIMEOUT
  split <;> simp_all

theorem LoadTimeout_default (w : Nat) (h : w &&& 0xFF < 5 ∨ 30 < w &&& 0xFF) :
    LoadTimeout w = 5 := by
  unfold LoadTimeout DEFAULT_TIMEOUT
  split <;> simp_all

theorem mem_CountdownBytes (t b : Nat) (h : b ∈ CountdownBytes t) :
    1 ≤ b ∧ b ≤ t := by
  induction t with
  | zero => simp [CountdownBytes] at h
  | succ n ih =>
    simp only [CountdownBytes, List.mem_cons] at h
    rcases h with h | h
    · omega
    · have := ih h
      omega

theorem and_255_eq_mod (x : Nat) : x &&& 255 = x % 256 := by
  have h := Nat.and_pow_two_sub_one_eq_mod x 8
  norm_num at h
  exact h

theorem pack_or_eq_add (a b c d : Nat) (hb : b < 256) (hc : c < 256) (hd : d < 256) :
    a <<< 24 ||| b <<< 16 ||| c <<< 8 ||| d =
      2 ^ 24 * a + 2 ^ 16 * b + 2 ^ 8 * c + d := by
  rw [Nat.shiftLeft_eq, Nat.shiftLeft_eq, Nat.shiftLeft_eq, Nat.or_assoc, Nat.or_assoc]
  have h1 : c * 2 ^ 8 ||| d = 2 ^ 8 * c + d := by
    rw [Nat.mul_comm c (2 ^ 8)]
    exact (Nat.mul_add_lt_is_or hd c).symm
  rw [h1]
  have hlt2 : 2 ^ 8 * c + d < 2 ^ 16 := by omega
  have h2 : b * 2 ^ 16 ||| (2 ^ 8 * c + d) = 2 ^ 16 * b + (2 ^ 8 * c + d) := by
    rw [Nat.mul_comm b (2 ^ 16)]
    exact (Nat.mul_add_lt_is_or hlt2 b).symm
  rw [h2]
  have hlt3 : 2 ^ 16 * b + (2 ^ 8 * c + d) < 2 ^ 24 := by omega
  have h3 : a * 2 ^ 24 ||| (2 ^ 16 * b + (2 ^ 8 * c + d)) =
      2 ^ 24 * a + (2 ^ 16 * b + (2 ^ 8 * c + d)) := by
    rw [Nat.mul_comm a (2 ^ 24)]
    exact (Nat.mul_add_lt_is_or hlt3 a).symm
  rw [h3]
  ring

theorem roundtrip5 (a b c d e : Nat) (ha : a < 256) (hb : b < 256) (hc : c < 256)
    (hd : d < 256) (he : e < 256) :
    LoadPasswordChars (SavePasswordWords [a, b, c, d, e]).1
      (SavePasswordWords [a, b, c, d, e]).2 = [a, b, c, d, e] := by
  have hp1 : (SavePasswordWords [a, b, c, d, e]).1 =
      2 ^ 24 * a + 2 ^ 16 * b + 2 ^ 8 * c + d := by
    simp only [SavePasswordWords, List.getD_cons_zero, List.getD_cons_succ]
    rw [pack_or_eq_add a b c d hb hc hd]
    apply Nat.mod_eq_of_lt
    omega
  have hp2 : (SavePasswordWords [a, b, c, d, e]).2 = 2 ^ 24 * e := by
    simp only [SavePasswordWords, List.getD_cons_zero, List.getD_cons_succ]
    rw [Nat.shiftLeft_eq, Nat.mul_comm e (2 ^ 24)]
    apply Nat.mod_eq_of_lt
    omega
  rw [hp1, hp2]
  simp only [LoadPasswordChars, Nat.shiftRight_eq_div_pow, and_255_eq_mod,
    List.cons.injEq, and_true]
  norm_num
  omega

end Control

theorem map_mod_of_lt (p : List Nat) (h : ∀ c ∈ p, c < 256) :
    p.map (fun b => b % 256) = p := by
  induction p with
  | nil => rfl
  | cons a p ih =>
    have ha := h a (List.mem_cons_self a p)
    simp only [List.map_cons, Nat.mod_eq_of_lt ha, List.cons.injEq, true_and]
    exact ih fun c hc => h c (List.mem_cons_of_mem a hc)

theorem cstr_of_ne_zero (p : List Nat) (h : ∀ c ∈ p, c ≠ 0) : cstr p = p := by
  induction p with
  | nil => rfl
  | cons a p ih =>
    have ha := h a (List.mem_cons_self a p)
    simp only [cstr, List.takeWhile_cons, bne_iff_ne, ne_eq, ha,
      not_false_eq_true, if_true]
    simpa [cstr] using ih fun c hc => h c (List.mem_cons_of_mem a hc)

namespace HMI

theorem TriggerLockoutCount_append (a b : List Frame) :
    TriggerLockoutCount (a ++ b) = TriggerLockoutCount a + TriggerLockoutCount b := by
  simp [TriggerLockoutCount, List.filter_append]

theorem SetupPasswordLoop_trigger (entries : Nat → List Nat × List Nat)
    (k : Nat) (responses : List Nat) :
    TriggerLockoutCount (SetupPasswordLoop entries k responses).1 = 0 := by
  induction responses generalizing k with
  | nil => simp [SetupPasswordLoop, TriggerLockoutCount, CMD_SETUP_PASSWORD,
      CMD_TRIGGER_LOCKOUT]
  | cons b rest ih =>
    simp only [SetupPasswordLoop]
    split
    · simp [TriggerLockoutCount, CMD_SETUP_PASSWORD, CMD_TRIGGER_LOCKOUT]
    · simp only [TriggerLockoutCount_append, ih]
      simp [TriggerLockoutCount, CMD_SETUP_PASSWORD, CMD_TRIGGER_LOCKOUT]

theorem OpenDoorAttemptLoop_trigger_le (pw : Nat → List Nat) (n k : Nat)
    (responses : List Nat) :
    TriggerLockoutCount (OpenDoorAttemptLoop pw k n responses).1 ≤ 1 := by
  induction n generalizing k responses with
  | zero => simp [OpenDoorAttemptLoop, TriggerLockoutCount, CMD_TRIGGER_LOCKOUT]
  | succ n ih =>
    simp only [OpenDoorAttemptLoop]
    split
    · simp [TriggerLockoutCount, CMD_OPEN_DOOR, CMD_TRIGGER_LOCKOUT]
    · simp only [TriggerLockoutCount_append]
      have h1 : TriggerLockoutCount [(⟨CMD_OPEN_DOOR, pw k⟩ : Frame)] = 0 := by
        simp [TriggerLockoutCount, CMD_OPEN_DOOR, CMD_TRIGGER_LOCKOUT]
      rw [h1]
      simpa using ih (k + 1) (WaitForResponse responses).2

theorem ChangePasswordAttemptLoop_trigger_le (pw : Nat → List Nat)
    (entries : Nat → List Nat × List Nat) (n k : Nat) (responses : List Nat) :
    TriggerLockoutCount (ChangePasswordAttemptLoop pw entries k n responses).1 ≤ 1 := by
  induction n generalizing k responses with
  | zero => simp [ChangePasswordAttemptLoop, TriggerLockoutCount, CMD_TRIGGER_LOCKOUT]
  | succ n ih =>
    simp only [ChangePasswordAttemptLoop]
    have h1 : TriggerLockoutCount [(⟨CMD_CHANGE_PASSWORD, pw k⟩ : Frame)] = 0 := by
      simp [TriggerLockoutCount, CMD_CHANGE_PASSWORD, CMD_TRIGGER_LOCKOUT]
    split
    · simp only [TriggerLockoutCount_append, h1,
        SetupPasswordLoop_trigger]
      omega
    · simp only [TriggerLockoutCount_append, h1]
      simpa using ih (k + 1) (WaitForResponse responses).2

end HMI

/-- Every byte the Control dispatcher emits in one step is either one of
the eleven response opcodes or a countdown value bounded by the in-memory
timeout at that moment. -/
theorem ControlStep_out_sound (s : Control.ControlState) (cmd : Nat)
    (input : List Nat) (b : Nat) (hb : b ∈ (Control.ControlStep s cmd input).out) :
    b ∈ Control.RESPONSE_CODES ∨ (1 ≤ b ∧ b ≤ s.autoLockTimeout) := by
  unfold Control.ControlStep at hb
  split_ifs at hb
  · simp only [Control.HandleCheckPassword, List.mem_singleton] at hb
    split_ifs at hb <;> subst hb <;> left <;> decide
  · simp only [Control.HandleSetupPassword] at hb
    split_ifs at hb <;> simp only [List.mem_singleton] at hb <;>
      subst hb <;> left <;> decide
  · simp only [Control.HandleChangePassword, List.mem_singleton] at hb
    split_ifs at hb <;> subst hb <;> left <;> decide
  · simp only [Control.HandleSetTimeout] at hb
    split_ifs at hb <;> simp only [List.mem_singleton] at hb <;>
      subst hb <;> left <;> decide
  · simp only [Control.HandleOpenDoor, Control.PerformDoorOperation] at hb
    split_ifs at hb
    · simp only [List.mem_cons, List.mem_append, List.mem_singleton] at hb
      rcases hb with rfl | rfl | rfl | hb | hb2
      · left; decide
      · left; decide
      · left; decide
      · right; exact Control.mem_CountdownBytes _ _ hb
      · rcases hb2 with rfl | rfl | h0
        · left; decide
        · left; decide
        · simp at h0
    · simp only [List.mem_singleton] at hb
      subst hb; left; decide
  · simp only [Control.HandleEraseEEPROM] at hb
    split_ifs at hb <;> simp only [List.mem_singleton] at hb <;>
      subst hb <;> left <;> decide
  · simp only [Control.HandleTriggerLockout, List.mem_singleton] at hb
    subst hb; left; decide
  · simp at hb

/-! ## Claim theorems -/

/-- Claim C1: for every stored credential and configured auto-lock timeout
equal to 5, Open-door invoked with a payload equal to the stored credential
emits exactly the ordered byte sequence PasswordMatch, DoorUnlocking,
CountdownStart, 5, 4, 3, 2, 1, DoorLocking, DoorLocked, and nothing else
(src/Control/main.c, `HandleOpenDoor` and `PerformDoorOperation`). -/
theorem C1_open_door_sequence (s : Control.ControlState) (rest : List Nat)
    (htime : s.autoLockTimeout = 5)
    (hlen : s.storedPassword.length = 5)
    (hdig : ∀ c ∈ s.storedPassword, 48 ≤ c ∧ c ≤ 57) :
    (Control.HandleOpenDoor s (s.storedPassword ++ rest)).out =
      [RESP_PASSWORD_MATCH, RESP_DOOR_UNLOCKING, RESP_COUNTDOWN_START,
       5, 4, 3, 2, 1, RESP_DOOR_LOCKING, RESP_DOOR_LOCKED] := by
  have hrec : Control.ReceivePassword (s.storedPassword ++ rest) =
      (s.storedPassword, rest) := by
    unfold Control.ReceivePassword PASSWORD_LENGTH
    rw [← hlen, Control.ReceiveChars_append]
    rw [map_mod_of_lt s.storedPassword (fun c hc => by have := hdig c hc; omega)]
  have hver : Control.VerifyPassword s s.storedPassword = true := by
    simp [Control.VerifyPassword]
  simp only [Control.HandleOpenDoor, hrec, hver, if_true,
    Control.PerformDoorOperation, htime]
  decide

/-- Witness for C1: the boot state of the sample EEPROM image has
credential 12345 and timeout 5; open-door with the stored credential
yields the ten-byte sequence. -/
theorem C1_witness :
    (Control.HandleOpenDoor (Control.BootState Control.SampleEEPROM)
      ((Control.BootState Control.SampleEEPROM).storedPassword ++ [])).out =
      [16, 19, 26, 5, 4, 3, 2, 1, 20, 21] :=
  C1_open_door_sequence _ [] (by decide) (by decide) (by decide)

/-- Claim C2: decoding the two storage words produced by encoding a
5-digit credential (characters packed most-significant-first, the fifth
character in the high byte of the second word) reproduces the credential
exactly (src/Control/main.c, `SavePassword` and `LoadPassword`). -/
theorem C2_credential_roundtrip (p : List Nat) (hlen : p.length = 5)
    (hdig : ∀ c ∈ p, 48 ≤ c ∧ c ≤ 57) :
    Control.LoadPasswordChars (Control.SavePasswordWords p).1
      (Control.SavePasswordWords p).2 = p := by
  rcases p with _ | ⟨a, p⟩
  · simp at hlen
  rcases p with _ | ⟨b, p⟩
  · simp at hlen
  rcases p with _ | ⟨c, p⟩
  · simp at hlen
  rcases p with _ | ⟨d, p⟩
  · simp at hlen
  rcases p with _ | ⟨e, p⟩
  · simp at hlen
  rcases p with _ | ⟨f, p⟩
  · have ha := hdig a (by simp)
    have hb := hdig b (by simp)
    have hc := hdig c (by simp)
    have hd := hdig d (by simp)
    have he := hdig e (by simp)
    exact Control.roundtrip5 a b c d e (by omega) (by omega) (by omega)
      (by omega) (by omega)
  · simp at hlen

/-- Witness for C2 at the credential 12345. -/
theorem C2_witness :
    Control.LoadPasswordChars (Control.SavePasswordWords [49, 50, 51, 52, 53]).1
      (Control.SavePasswordWords [49, 50, 51, 52, 53]).2 = [49, 50, 51, 52, 53] :=
  C2_credential_roundtrip [49, 50, 51, 52, 53] (by decide) (by decide)

/-- Counterexample to claim C3: the claimed invariant (in-memory timeout
in [5,30] in every reachable state across every opcode sequence, including
Set-timeout with an arbitrary received byte) fails on the code. Booting
from the sample image (timeout 5) and processing one Set-timeout opcode
with the matching password 12345 and timeout byte 255 leaves the in-memory
timeout at 255, because `SaveTimeout` stores the received byte with no
range check. -/
theorem C3_counterexample :
    ¬(5 ≤ (Control.ControlRun (Control.BootState Control.SampleEEPROM)
          [4, 49, 50, 51, 52, 53, 255]).1.autoLockTimeout ∧
      (Control.ControlRun (Control.BootState Control.SampleEEPROM)
          [4, 49, 50, 51, 52, 53, 255]).1.autoLockTimeout ≤ 30) := by
  decide

/-- Claim C3 as amended: the in-memory timeout lies in [5,30] immediately
after boot-time load, and every dispatcher step preserves the invariant
provided that any Set-timeout step's received timeout byte itself lies in
[5,30] (a successful Set-timeout stores the received byte unclamped);
under the invariant every countdown byte lies in [1,30]. -/
theorem C3_amended_timeout_invariant :
    (∀ ee : Control.EEPROMState,
      5 ≤ (Control.BootState ee).autoLockTimeout ∧
        (Control.BootState ee).autoLockTimeout ≤ 30) ∧
    (∀ (s : Control.ControlState) (cmd : Nat) (input : List Nat),
      5 ≤ s.autoLockTimeout → s.autoLockTimeout ≤ 30 →
      (cmd = CMD_SET_TIMEOUT →
        5 ≤ Control.ReceivedTimeoutByte input ∧
          Control.ReceivedTimeoutByte input ≤ 30) →
      5 ≤ (Control.ControlStep s cmd input).state.autoLockTimeout ∧
        (Control.ControlStep s cmd input).state.autoLockTimeout ≤ 30) ∧
    (∀ t b : Nat, 5 ≤ t → t ≤ 30 → b ∈ Control.CountdownBytes t →
      1 ≤ b ∧ b ≤ 30) := by
  refine ⟨fun ee => Control.LoadTimeout_range _, ?_, ?_⟩
  · intro s cmd input h5 h30 hst
    unfold Control.ControlStep
    split_ifs with h1 h2 h3 h4 h5x h6 h7 <;>
      simp_all [Control.HandleCheckPassword, Control.HandleSetupPassword,
        Control.HandleChangePassword, Control.HandleSetTimeout,
        Control.HandleOpenDoor, Control.HandleEraseEEPROM,
        Control.HandleTriggerLockout, Control.SavePassword, Control.SaveTimeout,
        Control.ReceivedTimeoutByte, DEFAULT_TIMEOUT] <;>
      split_ifs <;> simp_all
  · intro t b ht5 ht30 hmem
    have := Control.mem_CountdownBytes t b hmem
    omega

/-- Witness for the amended C3: a Set-timeout step with byte 20 on the
booted sample state keeps the timeout in range. -/
theorem C3_amended_witness :
    5 ≤ (Control.ControlStep (Control.BootState Control.SampleEEPROM) 4
          [49, 50, 51, 52, 53, 20]).state.autoLockTimeout ∧
      (Control.ControlStep (Control.BootState Control.SampleEEPROM) 4
          [49, 50, 51, 52, 53, 20]).state.autoLockTimeout ≤ 30 :=
  C3_amended_timeout_invariant.2.1 _ 4 _ (by decide) (by decide) (by decide)

/-- Claim C4: for every 32-bit stored timeout word, the boot-time decode
lands in [5,30], and any word whose low byte falls outside [5,30] decodes
to exactly 5 (src/Control/main.c, `LoadTimeout`). -/
theorem C4_timeout_decode_clamped (w : Nat) :
    (5 ≤ Control.LoadTimeout w ∧ Control.LoadTimeout w ≤ 30) ∧
      ((w &&& 0xFF < 5 ∨ 30 < w &&& 0xFF) → Control.LoadTimeout w = 5) :=
  ⟨Control.LoadTimeout_range w, Control.LoadTimeout_default w⟩

/-- Witness for C4 at the word 500, whose low byte 244 is out of range. -/
theorem C4_witness :
    (5 ≤ Control.LoadTimeout 500 ∧ Control.LoadTimeout 500 ≤ 30) ∧
      Control.LoadTimeout 500 = 5 :=
  ⟨(C4_timeout_decode_clamped 500).1, (C4_timeout_decode_clamped 500).2 (by decide)⟩

/-- Claim C5: Set-timeout with a mismatching password still consumes the
five password characters plus exactly one timeout byte from the channel,
responds PasswordMismatch, and leaves the whole state, the persisted and
in-memory timeout included, unchanged (src/Control/main.c,
`HandleSetTimeout`). -/
theorem C5_settimeout_mismatch (s : Control.ControlState) (input : List Nat)
    (hlen : 6 ≤ input.length)
    (hmis : Control.VerifyPassword s (Control.ReceivePassword input).1 = false) :
    Control.HandleSetTimeout s input =
      ⟨s, input.drop 6, [RESP_PASSWORD_MISMATCH]⟩ := by
  have hdrop5 : (Control.ReceivePassword input).2 = input.drop 5 :=
    Control.ReceiveChars_drop 5 input (by omega)
  have hex : ∃ b t, input.drop 5 = b :: t := by
    cases hd : input.drop 5 with
    | nil =>
      have := List.length_drop 5 input
      rw [hd] at this
      simp at this
      omega
    | cons b t => exact ⟨b, t, rfl⟩
  obtain ⟨b, t, hbt⟩ := hex
  have ht : t = input.drop 6 := by
    have h6 : (input.drop 5).tail = input.drop 6 := by
      rw [← List.drop_one, List.drop_drop]
    rw [← h6, hbt, List.tail_cons]
  simp only [Control.HandleSetTimeout, hdrop5, hbt, Control.ReceiveByte, hmis,
    Bool.false_eq_true, if_false, ht]

/-- Witness for C5: a wrong password (five zero digits against stored
12345) followed by the timeout byte 20. -/
theorem C5_witness :
    Control.HandleSetTimeout (Control.BootState Control.SampleEEPROM)
      [48, 48, 48, 48, 48, 20] =
      ⟨Control.BootState Control.SampleEEPROM, [], [17]⟩ :=
  C5_settimeout_mismatch _ _ (by decide) (by decide)

/-- Claim C6: Setup-password with two equal payloads persists the payload
words, writes the validity marker, updates the in-memory credential,
leaves both timeouts alone, and answers PasswordMatch; with unequal
payloads it answers PasswordMismatch and the state is completely
unchanged (src/Control/main.c, `HandleSetupPassword` and `SavePassword`). -/
theorem C6_setup_password (s : Control.ControlState) (input : List Nat) :
    (∀ p : List Nat,
      (Control.SavePassword s p).eeprom.passwordWord0 =
          (Control.SavePasswordWords p).1 ∧
        (Control.SavePassword s p).eeprom.passwordWord1 =
          (Control.SavePasswordWords p).2 ∧
        (Control.SavePassword s p).eeprom.validFlagWord = PASSWORD_VALID_MARKER ∧
        (Control.SavePassword s p).storedPassword = cstr p ∧
        (Control.SavePassword s p).eeprom.timeoutWord = s.eeprom.timeoutWord ∧
        (Control.SavePassword s p).autoLockTimeout = s.autoLockTimeout) ∧
    (cstr (Control.ReceivePassword input).1 =
        cstr (Control.ReceivePassword (Control.ReceivePassword input).2).1 →
      Control.HandleSetupPassword s input =
        ⟨Control.SavePassword s (Control.ReceivePassword input).1,
         (Control.ReceivePassword (Control.ReceivePassword input).2).2,
         [RESP_PASSWORD_MATCH]⟩) ∧
    (cstr (Control.ReceivePassword input).1 ≠
        cstr (Control.ReceivePassword (Control.ReceivePassword input).2).1 →
      Control.HandleSetupPassword s input =
        ⟨s, (Control.ReceivePassword (Control.ReceivePassword input).2).2,
         [RESP_PASSWORD_MISMATCH]⟩) := by
  refine ⟨fun p => ?_, fun he => ?_, fun hne => ?_⟩
  · simp [Control.SavePassword]
  · simp [Control.HandleSetupPassword, he]
  · simp [Control.HandleSetupPassword, beq_iff_eq, hne]

/-- Witness for C6: twice the payload 11111 on the sample boot state. -/
theorem C6_witness :
    Control.HandleSetupPassword (Control.BootState Control.SampleEEPROM)
      [49, 49, 49, 49, 49, 49, 49, 49, 49, 49] =
      ⟨Control.SavePassword (Control.BootState Control.SampleEEPROM)
        [49, 49, 49, 49, 49], [], [16]⟩ :=
  (C6_setup_password _ _).2.1 (by decide)

/-- Claim C7: in the HMI dialogs, a dialog whose first three responses are
all PasswordMismatch emits exactly one TriggerLockout frame (open-door and
change-password dialogs); no dialog ever emits more than one; the
set-timeout and erase dialogs make only a single attempt and never emit a
TriggerLockout frame at all, so a three-mismatch dialog cannot arise there
(src/main.c, the four `Handle...` dialog functions). -/
theorem C7_lockout_trigger (pw : Nat → List Nat)
    (entries : Nat → List Nat × List Nat) (pwd : List Nat) (timeout : Nat)
    (responses : List Nat) :
    (responses.take 3 =
        [RESP_PASSWORD_MISMATCH, RESP_PASSWORD_MISMATCH, RESP_PASSWORD_MISMATCH] →
      HMI.TriggerLockoutCount (HMI.HandleOpenDoor pw responses).1 = 1 ∧
      HMI.TriggerLockoutCount (HMI.HandleChangePassword pw entries responses).1 = 1) ∧
    HMI.TriggerLockoutCount (HMI.HandleOpenDoor pw responses).1 ≤ 1 ∧
    HMI.TriggerLockoutCount (HMI.HandleChangePassword pw entries responses).1 ≤ 1 ∧
    HMI.TriggerLockoutCount (HMI.HandleSetTimeout pwd timeout responses).1 = 0 ∧
    HMI.TriggerLockoutCount (HMI.HandleEraseEEPROM pwd entries responses).1 = 0 := by
  refine ⟨?_, HMI.OpenDoorAttemptLoop_trigger_le pw 3 0 responses,
    HMI.ChangePasswordAttemptLoop_trigger_le pw entries 3 0 responses, rfl, ?_⟩
  · intro h3
    rcases responses with _ | ⟨r1, responses⟩
    · simp at h3
    rcases responses with _ | ⟨r2, responses⟩
    · simp at h3
    rcases responses with _ | ⟨r3, rest⟩
    · simp at h3
    simp only [List.take_succ_cons, List.take_zero] at h3
    obtain ⟨rfl, rfl, rfl⟩ : r1 = 17 ∧ r2 = 17 ∧ r3 = 17 := by
      simpa using h3
    exact ⟨rfl, rfl⟩
  · simp only [HMI.HandleEraseEEPROM]
    split_ifs
    · simp only [HMI.TriggerLockoutCount_append, HMI.SetupPasswordLoop_trigger]
      simp [HMI.TriggerLockoutCount, CMD_ERASE_EEPROM, CMD_TRIGGER_LOCKOUT]
    · simp [HMI.TriggerLockoutCount, CMD_ERASE_EEPROM, CMD_TRIGGER_LOCKOUT]

/-- Witness for C7: three straight mismatches in an open-door dialog give
exactly one TriggerLockout frame. -/
theorem C7_witness :
    HMI.TriggerLockoutCount
      (HMI.HandleOpenDoor (fun _ => [49, 49, 49, 49, 49]) [17, 17, 17]).1 = 1 :=
  ((C7_lockout_trigger (fun _ => [49, 49, 49, 49, 49])
      (fun _ => ([49, 49, 49, 49, 49], [49, 49, 49, 49, 49]))
      [49, 49, 49, 49, 49] 5 [17, 17, 17]).1 (by decide)).1

/-- Counterexample to claim C8: the sentinel byte 0xFF is transmitted on
the wire in a reachable authority state. Booting from the sample image,
a Set-timeout opcode with the matching password and timeout byte 255
followed by an Open-door opcode with the matching password makes the
countdown loop emit the byte 255. -/
theorem C8_counterexample :
    RESP_TIMEOUT_SENTINEL ∈
      (Control.ControlRun (Control.BootState Control.SampleEEPROM)
        [4, 49, 50, 51, 52, 53, 255, 5, 49, 50, 51, 52, 53]).2 := by
  decide

/-- Claim C8 as amended: every byte one dispatcher step sends is either a
defined response opcode or a countdown value bounded by the in-memory
timeout; therefore, whenever the in-memory timeout is below 255 (in
particular whenever it is in [5,30]), the byte 0xFF is never sent; the
sentinel arises only locally in the HMI response wait on an exhausted
stream. -/
theorem C8_amended_wire_bytes :
    (∀ (s : Control.ControlState) (cmd : Nat) (input : List Nat) (b : Nat),
      b ∈ (Control.ControlStep s cmd input).out →
      b ∈ Control.RESPONSE_CODES ∨ (1 ≤ b ∧ b ≤ s.autoLockTimeout)) ∧
    (∀ (s : Control.ControlState) (cmd : Nat) (input : List Nat),
      s.autoLockTimeout < 255 →
      RESP_TIMEOUT_SENTINEL ∉ (Control.ControlStep s cmd input).out) ∧
    (HMI.WaitForResponse []).1 = RESP_TIMEOUT_SENTINEL := by
  refine ⟨fun s cmd input b hb => ControlStep_out_sound s cmd input b hb,
    fun s cmd input hlt hmem => ?_, rfl⟩
  rcases ControlStep_out_sound s cmd input RESP_TIMEOUT_SENTINEL hmem with h | h
  · exact absurd h (by decide)
  · simp only [RESP_TIMEOUT_SENTINEL] at h
    omega

/-- Witness for the amended C8: no 0xFF in the response to a
Check-password opcode on the booted sample state. -/
theorem C8_witness :
    RESP_TIMEOUT_SENTINEL ∉
      (Control.ControlStep (Control.BootState Control.SampleEEPROM) 7 []).out :=
  C8_amended_wire_bytes.2.1 _ 7 [] (by decide)

/-- Claim C9: for a configured timeout between 20 and 30, the countdown
stream contains the byte 20, which is the same wire value as DoorLocking
(0x14); the HMI countdown receive loop stops at that first 20, leaving the
countdown values 19 down to 1 and the authority's real DoorLocking byte
unconsumed in the stream (src/main.c countdown loop, src/Control/main.c
`PerformDoorOperation`). -/
theorem C9_countdown_collision (t : Nat) (h20 : 20 ≤ t) (h30 : t ≤ 30) :
    RESP_DOOR_LOCKING ∈ Control.CountdownBytes t ∧
      HMI.CountdownReceive (Control.CountdownBytes t ++
          [RESP_DOOR_LOCKING, RESP_DOOR_LOCKED]) =
        Control.CountdownBytes 19 ++ [RESP_DOOR_LOCKING, RESP_DOOR_LOCKED] := by
  interval_cases t <;> decide

/-- Witness for C9 at timeout 25. -/
theorem C9_witness :
    RESP_DOOR_LOCKING ∈ Control.CountdownBytes 25 ∧
      HMI.CountdownReceive (Control.CountdownBytes 25 ++
          [RESP_DOOR_LOCKING, RESP_DOOR_LOCKED]) =
        Control.CountdownBytes 19 ++ [RESP_DOOR_LOCKING, RESP_DOOR_LOCKED] :=
  C9_countdown_collision 25 (by decide) (by decide)

/-- Claim C10: a successful Erase resets the in-memory credential to the
string of five zero digits and the timeout to 5 while answering
EepromErased; afterwards, any state with that credential verifies the
payload of five zero digits, Check-password answers NoPassword because
the validity word holds the erased value, and each of the four
password-gated handlers given that payload succeeds while preserving the
credential and (except Erase itself, which rewrites the erased value) the
validity word (src/Control/main.c, `HandleEraseEEPROM`, `VerifyPassword`,
`IsPasswordValid`). -/
theorem C10_erase_resets (s : Control.ControlState) (input input2 rest : List Nat)
    (hmatch : Control.VerifyPassword s (Control.ReceivePassword input).1 = true) :
    ((Control.HandleEraseEEPROM s input).state.storedPassword = [48, 48, 48, 48, 48] ∧
     (Control.HandleEraseEEPROM s input).state.autoLockTimeout = 5 ∧
     (Control.HandleEraseEEPROM s input).state.eeprom.validFlagWord =
        Control.EEPROM_ERASED_WORD ∧
     (Control.HandleEraseEEPROM s input).out = [RESP_EEPROM_ERASED]) ∧
    (∀ s2 : Control.ControlState, s2.storedPassword = [48, 48, 48, 48, 48] →
      Control.VerifyPassword s2 [48, 48, 48, 48, 48] = true ∧
      (s2.eeprom.validFlagWord = Control.EEPROM_ERASED_WORD →
        (Control.HandleCheckPassword s2 input2).out = [RESP_NO_PASSWORD]) ∧
      (Control.HandleOpenDoor s2 ([48, 48, 48, 48, 48] ++ rest)).out =
        RESP_PASSWORD_MATCH :: Control.PerformDoorOperation s2 ∧
      (Control.HandleOpenDoor s2 ([48, 48, 48, 48, 48] ++ rest)).state = s2 ∧
      (Control.HandleChangePassword s2 ([48, 48, 48, 48, 48] ++ rest)).out =
        [RESP_PASSWORD_MATCH] ∧
      (Control.HandleChangePassword s2 ([48, 48, 48, 48, 48] ++ rest)).state = s2 ∧
      (Control.HandleSetTimeout s2 ([48, 48, 48, 48, 48] ++ rest)).out =
        [RESP_TIMEOUT_SAVED] ∧
      (Control.HandleSetTimeout s2
          ([48, 48, 48, 48, 48] ++ rest)).state.storedPassword =
        [48, 48, 48, 48, 48] ∧
      (Control.HandleSetTimeout s2
          ([48, 48, 48, 48, 48] ++ rest)).state.eeprom.validFlagWord =
        s2.eeprom.validFlagWord ∧
      (Control.HandleEraseEEPROM s2 ([48, 48, 48, 48, 48] ++ rest)).out =
        [RESP_EEPROM_ERASED] ∧
      (Control.HandleEraseEEPROM s2
          ([48, 48, 48, 48, 48] ++ rest)).state.storedPassword =
        [48, 48, 48, 48, 48] ∧
      (Control.HandleEraseEEPROM s2
          ([48, 48, 48, 48, 48] ++ rest)).state.eeprom.validFlagWord =
        Control.EEPROM_ERASED_WORD) := by
  constructor
  · simp [Control.HandleEraseEEPROM, hmatch, Control.ErasedEEPROM, DEFAULT_TIMEOUT]
  · intro s2 h2
    have hrec : Control.ReceivePassword (48 :: 48 :: 48 :: 48 :: 48 :: rest) =
        ([48, 48, 48, 48, 48], rest) := by
      have h := Control.ReceiveChars_append [48, 48, 48, 48, 48] rest
      simpa [Control.ReceivePassword, PASSWORD_LENGTH] using h
    have hver : Control.VerifyPassword s2 [48, 48, 48, 48, 48] = true := by
      simp [Control.VerifyPassword, h2, cstr]
    refine ⟨hver, fun hflag => ?_, ?_, ?_, ?_, ?_, ?_, ?_, ?_, ?_, ?_, ?_⟩
    · simp [Control.HandleCheckPassword, Control.IsPasswordValid, hflag,
        Control.EEPROM_ERASED_WORD, PASSWORD_VALID_MARKER, RESP_NO_PASSWORD]
    · simp [Control.HandleOpenDoor, hrec, hver]
    · simp [Control.HandleOpenDoor, hrec, hver]
    · simp [Control.HandleChangePassword, hrec, hver]
    · simp [Control.HandleChangePassword, hrec, hver]
    · simp [Control.HandleSetTimeout, hrec, hver]
    · simp [Control.HandleSetTimeout, hrec, hver, Control.SaveTimeout, h2]
    · simp [Control.HandleSetTimeout, hrec, hver, Control.SaveTimeout]
    · simp [Control.HandleEraseEEPROM, hrec, hver]
    · simp [Control.HandleEraseEEPROM, hrec, hver]
    · simp [Control.HandleEraseEEPROM, hrec, hver, Control.ErasedEEPROM]

/-- Witness for C10: erasing with the matching password 12345 on the
sample boot state yields the credential of five zero digits, which then
verifies. -/
theorem C10_witness :
    (Control.HandleEraseEEPROM (Control.BootState Control.SampleEEPROM)
        [49, 50, 51, 52, 53]).state.storedPassword = [48, 48, 48, 48, 48] ∧
      Control.VerifyPassword
        (Control.HandleEraseEEPROM (Control.BootState Control.SampleEEPROM)
          [49, 50, 51, 52, 53]).state [48, 48, 48, 48, 48] = true :=
  ⟨(C10_erase_resets (Control.BootState Control.SampleEEPROM)
      [49, 50, 51, 52, 53] [] [] (by decide)).1.1,
   ((C10_erase_resets (Control.BootState Control.SampleEEPROM)
      [49, 50, 51, 52, 53] [] [] (by decide)).2 _
      (C10_erase_resets (Control.BootState Control.SampleEEPROM)
        [49, 50, 51, 52, 53] [] [] (by decide)).1.1).1⟩

end DoorLock
